import Mathlib

/-!
Shallow embedding of the tunnel-service launcher (`launch` in the tunnel
service module): a server-side subscriber registered on the `"tunnel"`
channel that demultiplexes JSON control/data messages arriving on
transports into per-tunnel `SocketManager` sessions.

The embedding mirrors the source:

* `launch` allocates one `idToSocketManager : Map<string, SocketManager>`
  (modelled as an association list `List (String × Nat)` from tunnel id to
  an allocation reference standing for a `SocketManager` object). The map
  is created once, in the scope of `launch`, and is shared by every
  connection the subscriber accepts (`onConnection` closes over it).
* The per-message handler (`async data => ...`) parses the payload, reads
  `event` and `tunnelId`, looks the id up in the map, and dispatches:
  - `proxyCreated`: `idToSocketManager.set(tunnelId,
      new SocketManager(message.tunnelId, message.remotePort, transport))`;
  - `connection` / `data`: `invariant(socketManager);
      socketManager.send(message)`;
  - `proxyClosed`: `invariant(socketManager); socketManager.close()`
      (the source does not delete the table entry);
  - any other event: fall through, nothing happens.
* The handler has no try/catch: a `JSON.parse` failure or a failed
  `invariant` makes the async handler reject; this is modelled by the
  handler returning `Except.error`. The subscription ignores the handler's
  result promise, so the next message is still processed against the
  unchanged state; this is modelled by the fold `stepRaw`/`serverRun`.
* Side effects on `SocketManager` objects (construction, `send`, `close`)
  are recorded in an effect log; session objects are identified by
  allocation order (`RouterState.nextRef`). Transports are identified by a
  numeric label; the only use the router makes of a transport is to pass it
  to the `SocketManager` constructor.
-/

namespace Tunnel

/-- Deserialized wire message: `event`, `tunnelId`, an optional
`remotePort` (`none` models an absent/undefined field) and an opaque
payload standing for the rest of the JSON object. -/
structure Message where
  event : String
  tunnelId : String
  remotePort : Option Nat
  payload : Option String
  deriving DecidableEq

/-- A raw transport payload: either text that parses to a `Message`, or
text on which `JSON.parse` throws. -/
inductive RawData where
  | wellFormed (m : Message)
  | malformed (raw : String)
  deriving DecidableEq

/-- Failures of the per-message handler: `JSON.parse` throwing
(`malformedMessage`) and `invariant(socketManager)` failing on a missing
table entry (`unknownTunnel`). -/
inductive TunnelError where
  | malformedMessage
  | unknownTunnel
  deriving DecidableEq

/-- Observable effects on `SocketManager` sessions: construction with
`(tunnelId, remotePort, transport)`, `send(message)`, and `close()`.
Sessions are identified by their allocation reference. -/
inductive Effect where
  | created (ref : Nat) (transport : Nat) (tunnelId : String)
      (remotePort : Option Nat)
  | send (ref : Nat) (message : Message)
  | close (ref : Nat)
  deriving DecidableEq

instance {ε α : Type} [DecidableEq ε] [DecidableEq α] :
    DecidableEq (Except ε α) := fun x y =>
  match x, y with
  | Except.ok a, Except.ok b =>
      if h : a = b then isTrue (by rw [h])
      else isFalse (by intro hc; cases hc; exact h rfl)
  | Except.ok _, Except.error _ => isFalse (by intro hc; cases hc)
  | Except.error _, Except.ok _ => isFalse (by intro hc; cases hc)
  | Except.error a, Except.error b =>
      if h : a = b then isTrue (by rw [h])
      else isFalse (by intro hc; cases hc; exact h rfl)

/-- The session reference an effect touches. -/
def effRef : Effect → Nat
  | Effect.created r _ _ _ => r
  | Effect.send r _ => r
  | Effect.close r => r

/-- Lookup in the routing table (`Map.get`). -/
def tableGet : List (String × Nat) → String → Option Nat
  | [], _ => none
  | (k, v) :: rest, id => if k = id then some v else tableGet rest id

/-- Remove every binding of a key; helper for `tableSet`. -/
def tableErase : List (String × Nat) → String → List (String × Nat)
  | [], _ => []
  | (k, v) :: rest, id =>
      if k = id then tableErase rest id else (k, v) :: tableErase rest id

/-- Insert or overwrite a binding (`Map.set`): the new binding replaces any
previous binding of the same key; other keys are untouched. -/
def tableSet (t : List (String × Nat)) (id : String) (ref : Nat) :
    List (String × Nat) :=
  (id, ref) :: tableErase t id

/-- State of one launched tunnel subscriber: the shared `idToSocketManager`
table, the next fresh session reference, and the log of session effects
produced so far. -/
structure RouterState where
  idToSocketManager : List (String × Nat)
  nextRef : Nat
  log : List Effect
  deriving DecidableEq

/-- `launch` starts with an empty map, no sessions, no effects. -/
def initialState : RouterState :=
  { idToSocketManager := [], nextRef := 0, log := [] }

/-- One step of the per-message handler after `JSON.parse` succeeded:
dispatch of message `m` that arrived on connection `transport`. The source
reads `idToSocketManager.get(tunnelId)` once before dispatching; the lookup
is pure, so it is inlined at its two uses here. Note that the
`proxyClosed` branch calls `close()` but does not remove the table entry,
and that an unrecognized event falls through all branches. -/
def handleParsed (transport : Nat) (s : RouterState) (m : Message) :
    Except TunnelError RouterState :=
  if m.event = "proxyCreated" then
    Except.ok
      { idToSocketManager := tableSet s.idToSocketManager m.tunnelId s.nextRef,
        nextRef := s.nextRef + 1,
        log := s.log ++ [Effect.created s.nextRef transport m.tunnelId m.remotePort] }
  else if m.event = "connection" ∨ m.event = "data" then
    match tableGet s.idToSocketManager m.tunnelId with
    | none => Except.error TunnelError.unknownTunnel
    | some ref => Except.ok { s with log := s.log ++ [Effect.send ref m] }
  else if m.event = "proxyClosed" then
    match tableGet s.idToSocketManager m.tunnelId with
    | none => Except.error TunnelError.unknownTunnel
    | some ref => Except.ok { s with log := s.log ++ [Effect.close ref] }
  else
    Except.ok s

/-- The whole async handler body: `JSON.parse`, then dispatch. -/
def handleRaw (transport : Nat) (s : RouterState) (d : RawData) :
    Except TunnelError RouterState :=
  match d with
  | RawData.malformed _ => Except.error TunnelError.malformedMessage
  | RawData.wellFormed m => handleParsed transport s m

/-- Effect of one parsed message on the shared state as seen by the
subscription loop: the handler's rejected promise is ignored, so on error
the state is unchanged and the subscription continues. -/
def stepParsed (transport : Nat) (s : RouterState) (m : Message) :
    RouterState :=
  match handleParsed transport s m with
  | Except.ok s2 => s2
  | Except.error _ => s

/-- Run a sequence of parsed messages arriving in order on one
connection. -/
def run (transport : Nat) (s : RouterState) (ms : List Message) :
    RouterState :=
  ms.foldl (stepParsed transport) s

/-- Effect of one raw delivery, tagged with the connection it arrived on,
on the shared state. -/
def stepRaw (s : RouterState) (d : Nat × RawData) : RouterState :=
  match handleRaw d.1 s d.2 with
  | Except.ok s2 => s2
  | Except.error _ => s

/-- Run raw deliveries, possibly interleaved across connections, against
the single table created by `launch`. -/
def serverRun (s : RouterState) (ds : List (Nat × RawData)) : RouterState :=
  ds.foldl stepRaw s

/-- Messages forwarded via `send` to session `ref`, in log order. -/
def sendsTo (ref : Nat) (l : List Effect) : List Message :=
  l.filterMap fun e =>
    match e with
    | Effect.send r m => if r = ref then some m else none
    | _ => none

/-- Sessions touched by a `send` or a `close` in an effect list. -/
def touchedRefs (l : List Effect) : List Nat :=
  l.filterMap fun e =>
    match e with
    | Effect.send r _ => some r
    | Effect.close r => some r
    | Effect.created _ _ _ _ => none

/-- Allocation discipline: every session reference stored in the table or
mentioned in the log was allocated before `nextRef`. -/
def goodState (s : RouterState) : Prop :=
  (∀ p ∈ s.idToSocketManager, p.2 < s.nextRef) ∧
  (∀ e ∈ s.log, effRef e < s.nextRef)

/-- Creation message (`event = "proxyCreated"`) for a tunnel id, remote
port and payload rest. -/
def mkCreated (id : String) (port : Option Nat) (payload : Option String) :
    Message :=
  { event := "proxyCreated", tunnelId := id, remotePort := port,
    payload := payload }

/-- Concrete creation message for tunnel `"t1"`, remote port 8080. -/
def mCreateT1 : Message :=
  { event := "proxyCreated", tunnelId := "t1", remotePort := some 8080,
    payload := none }

/-- Concrete data message for tunnel `"t1"`. -/
def mDataT1 : Message :=
  { event := "data", tunnelId := "t1", remotePort := none,
    payload := some "hello" }

/-- Concrete closure message for tunnel `"t1"`. -/
def mCloseT1 : Message :=
  { event := "proxyClosed", tunnelId := "t1", remotePort := none,
    payload := none }

/-- Concrete creation message for tunnel `"t2"`, remote port 9090. -/
def mCreateT2 : Message :=
  { event := "proxyCreated", tunnelId := "t2", remotePort := some 9090,
    payload := none }

/-- Concrete data message for tunnel `"t2"`. -/
def mDataT2 : Message :=
  { event := "data", tunnelId := "t2", remotePort := none,
    payload := some "x" }

/-- Concrete second creation message for tunnel `"t1"`, remote port 9090. -/
def mCreateT1b : Message :=
  { event := "proxyCreated", tunnelId := "t1", remotePort := some 9090,
    payload := none }

/-- Concrete message with an event outside the dispatched set. -/
def mPingT1 : Message :=
  { event := "ping", tunnelId := "t1", remotePort := none, payload := none }

theorem tableGet_tableSet_self (t : List (String × Nat)) (id : String)
    (r : Nat) : tableGet (tableSet t id r) id = some r := by
  simp [tableSet, tableGet]

theorem tableGet_tableErase_other (id id' : String) (h : id' ≠ id) :
    ∀ t : List (String × Nat), tableGet (tableErase t id) id' = tableGet t id'
  | [] => rfl
  | (k, v) :: rest => by
    by_cases hk : k = id
    · have hk' : k ≠ id' := by
        intro hc
        exact h (hc ▸ hk)
      simp [tableErase, tableGet, hk, hk', Ne.symm h,
        tableGet_tableErase_other id id' h rest]
    · by_cases hk2 : k = id'
      · simp [tableErase, tableGet, hk, hk2, h]
      · simp [tableErase, tableGet, hk, hk2,
          tableGet_tableErase_other id id' h rest]

theorem tableGet_tableSet_other (t : List (String × Nat)) (id id' : String)
    (r : Nat) (h : id' ≠ id) :
    tableGet (tableSet t id r) id' = tableGet t id' := by
  have hid : id ≠ id' := fun hc => h hc.symm
  simp [tableSet, tableGet, hid, tableGet_tableErase_other id id' h t]

theorem mem_of_mem_tableErase (id : String) (p : String × Nat) :
    ∀ t : List (String × Nat), p ∈ tableErase t id → p ∈ t
  | [] => fun h => h
  | (k, v) :: rest => by
    by_cases hk : k = id
    · intro h
      rw [tableErase, if_pos hk] at h
      exact List.mem_cons_of_mem _ (mem_of_mem_tableErase id p rest h)
    · intro h
      rw [tableErase, if_neg hk] at h
      rcases List.mem_cons.mp h with h | h
      · exact List.mem_cons.mpr (Or.inl h)
      · exact List.mem_cons_of_mem _ (mem_of_mem_tableErase id p rest h)

theorem mem_tableSet (t : List (String × Nat)) (id : String) (r : Nat)
    (p : String × Nat) (h : p ∈ tableSet t id r) : p = (id, r) ∨ p ∈ t := by
  rcases List.mem_cons.mp h with h | h
  · exact Or.inl h
  · exact Or.inr (mem_of_mem_tableErase id p t h)

theorem mem_of_tableGet (id : String) (r : Nat) :
    ∀ t : List (String × Nat), tableGet t id = some r → (id, r) ∈ t
  | [] => fun h => by cases h
  | (k, v) :: rest => by
    by_cases hk : k = id
    · intro h
      rw [tableGet, if_pos hk] at h
      cases h
      exact List.mem_cons.mpr (Or.inl (by rw [hk]))
    · intro h
      rw [tableGet, if_neg hk] at h
      exact List.mem_cons_of_mem _ (mem_of_tableGet id r rest h)

theorem sendsTo_append (ref : Nat) (l1 l2 : List Effect) :
    sendsTo ref (l1 ++ l2) = sendsTo ref l1 ++ sendsTo ref l2 := by
  simp [sendsTo, List.filterMap_append]

theorem sendsTo_created (ref r tr : Nat) (id : String) (port : Option Nat) :
    sendsTo ref [Effect.created r tr id port] = [] := by
  simp [sendsTo]

theorem sendsTo_close (ref r : Nat) : sendsTo ref [Effect.close r] = [] := by
  simp [sendsTo]

theorem sendsTo_send_self (ref : Nat) (m : Message) :
    sendsTo ref [Effect.send ref m] = [m] := by
  simp [sendsTo]

theorem sendsTo_send_other (ref r : Nat) (m : Message) (h : r ≠ ref) :
    sendsTo ref [Effect.send r m] = [] := by
  simp [sendsTo, h]

theorem sendsTo_eq_nil_of_fresh (ref n : Nat) (hn : n ≤ ref) :
    ∀ l : List Effect, (∀ e ∈ l, effRef e < n) → sendsTo ref l = []
  | [] => fun _ => rfl
  | e :: rest => by
    intro h
    have hrest := sendsTo_eq_nil_of_fresh ref n hn rest
      (fun e' he' => h e' (List.mem_cons_of_mem _ he'))
    have he := h e (List.mem_cons.mpr (Or.inl rfl))
    cases e with
    | created r tr id port => simp [sendsTo] at hrest ⊢; exact hrest
    | close r => simp [sendsTo] at hrest ⊢; exact hrest
    | send r m =>
      have hr : r ≠ ref := by
        intro hc
        rw [effRef] at he
        omega
      simp [sendsTo, hr] at hrest ⊢
      exact hrest

theorem goodState_initial : goodState initialState := by
  constructor
  · intro p hp
    simp [initialState] at hp
  · intro e he
    simp [initialState] at he

theorem handleParsed_good (tr : Nat) (s : RouterState) (m : Message)
    (s2 : RouterState) (hg : goodState s)
    (h : handleParsed tr s m = Except.ok s2) :
    goodState s2 ∧ s.nextRef ≤ s2.nextRef := by
  by_cases h1 : m.event = "proxyCreated"
  · rw [handleParsed, if_pos h1] at h
    cases h
    refine ⟨⟨?_, ?_⟩, ?_⟩
    · intro p hp
      show p.2 < s.nextRef + 1
      rcases mem_tableSet s.idToSocketManager m.tunnelId s.nextRef p hp
        with hp | hp
      · subst hp
        show s.nextRef < s.nextRef + 1
        omega
      · have := hg.1 p hp
        omega
    · intro e he
      show effRef e < s.nextRef + 1
      rcases List.mem_append.mp he with he | he
      · have := hg.2 e he
        omega
      · rcases List.mem_singleton.mp he with rfl
        rw [effRef]
        omega
    · show s.nextRef ≤ s.nextRef + 1
      omega
  · by_cases h2 : m.event = "connection" ∨ m.event = "data"
    · rw [handleParsed, if_neg h1, if_pos h2] at h
      cases hget : tableGet s.idToSocketManager m.tunnelId with
      | none =>
        rw [hget] at h
        simp at h
      | some ref =>
        rw [hget] at h
        cases h
        have href : ref < s.nextRef :=
          hg.1 (m.tunnelId, ref) (mem_of_tableGet _ _ _ hget)
        refine ⟨⟨hg.1, ?_⟩, Nat.le_refl _⟩
        intro e he
        rcases List.mem_append.mp he with he | he
        · exact hg.2 e he
        · rcases List.mem_singleton.mp he with rfl
          rw [effRef]
          exact href
    · by_cases h3 : m.event = "proxyClosed"
      · rw [handleParsed, if_neg h1, if_neg h2, if_pos h3] at h
        cases hget : tableGet s.idToSocketManager m.tunnelId with
        | none =>
          rw [hget] at h
          simp at h
        | some ref =>
          rw [hget] at h
          cases h
          have href : ref < s.nextRef :=
            hg.1 (m.tunnelId, ref) (mem_of_tableGet _ _ _ hget)
          refine ⟨⟨hg.1, ?_⟩, Nat.le_refl _⟩
          intro e he
          rcases List.mem_append.mp he with he | he
          · exact hg.2 e he
          · rcases List.mem_singleton.mp he with rfl
            rw [effRef]
            exact href
      · rw [handleParsed, if_neg h1, if_neg h2, if_neg h3] at h
        cases h
        exact ⟨hg, Nat.le_refl _⟩

theorem stepParsed_good (tr : Nat) (s : RouterState) (m : Message)
    (hg : goodState s) :
    goodState (stepParsed tr s m) ∧ s.nextRef ≤ (stepParsed tr s m).nextRef := by
  cases hh : handleParsed tr s m with
  | ok s2 =>
    rw [stepParsed, hh]
    exact handleParsed_good tr s m s2 hg hh
  | error e =>
    rw [stepParsed, hh]
    exact ⟨hg, Nat.le_refl _⟩

theorem run_good (tr : Nat) :
    ∀ (ms : List Message) (s : RouterState), goodState s →
      goodState (run tr s ms)
  | [], s => fun hg => hg
  | m :: ms, s => fun hg => by
    rw [run, List.foldl_cons]
    exact run_good tr ms (stepParsed tr s m) (stepParsed_good tr s m hg).1

theorem run_append (tr : Nat) (s : RouterState) (l1 l2 : List Message) :
    run tr s (l1 ++ l2) = run tr (run tr s l1) l2 := by
  simp [run, List.foldl_append]

theorem run_cons (tr : Nat) (s : RouterState) (m : Message)
    (ms : List Message) :
    run tr s (m :: ms) = run tr (stepParsed tr s m) ms := by
  simp [run, List.foldl_cons]

theorem stepParsed_created (tr : Nat) (s : RouterState) (id : String)
    (port : Option Nat) (payload : Option String) :
    stepParsed tr s (mkCreated id port payload) =
      { idToSocketManager := tableSet s.idToSocketManager id s.nextRef,
        nextRef := s.nextRef + 1,
        log := s.log ++ [Effect.created s.nextRef tr id port] } := by
  simp [stepParsed, handleParsed, mkCreated]

theorem stepParsed_route (tr : Nat) (s : RouterState) (m : Message)
    (ref : Nat) (hev : m.event = "connection" ∨ m.event = "data")
    (hget : tableGet s.idToSocketManager m.tunnelId = some ref) :
    stepParsed tr s m = { s with log := s.log ++ [Effect.send ref m] } := by
  have h1 : ¬ m.event = "proxyCreated" := by
    rcases hev with hev | hev <;> rw [hev] <;> decide
  rw [stepParsed, handleParsed, if_neg h1, if_pos hev, hget]

theorem stepParsed_closed (tr : Nat) (s : RouterState) (m : Message)
    (ref : Nat) (hev : m.event = "proxyClosed")
    (hget : tableGet s.idToSocketManager m.tunnelId = some ref) :
    stepParsed tr s m = { s with log := s.log ++ [Effect.close ref] } := by
  have h1 : ¬ m.event = "proxyCreated" := by
    rw [hev]; decide
  have h2 : ¬ (m.event = "connection" ∨ m.event = "data") := by
    rw [hev]; decide
  rw [stepParsed, handleParsed, if_neg h1, if_neg h2, if_pos hev, hget]

theorem stepParsed_frame (tr : Nat) (s : RouterState) (m : Message)
    (id : String) (ref : Nat) (hg : goodState s) (hid : m.tunnelId ≠ id)
    (hget : tableGet s.idToSocketManager id = some ref)
    (huniq : ∀ p ∈ s.idToSocketManager, p.2 = ref → p.1 = id) :
    tableGet (stepParsed tr s m).idToSocketManager id = some ref ∧
    (∀ p ∈ (stepParsed tr s m).idToSocketManager, p.2 = ref → p.1 = id) ∧
    sendsTo ref (stepParsed tr s m).log = sendsTo ref s.log := by
  have href : ref < s.nextRef := hg.1 (id, ref) (mem_of_tableGet _ _ _ hget)
  by_cases h1 : m.event = "proxyCreated"
  · have hstep : stepParsed tr s m =
        { idToSocketManager := tableSet s.idToSocketManager m.tunnelId s.nextRef,
          nextRef := s.nextRef + 1,
          log := s.log ++ [Effect.created s.nextRef tr m.tunnelId m.remotePort] } := by
      rw [stepParsed, handleParsed, if_pos h1]
    rw [hstep]
    refine ⟨?_, ?_, ?_⟩
    · show tableGet (tableSet s.idToSocketManager m.tunnelId s.nextRef) id =
        some ref
      rw [tableGet_tableSet_other s.idToSocketManager m.tunnelId id s.nextRef
        (Ne.symm hid)]
      exact hget
    · intro p hp hp2
      rcases mem_tableSet s.idToSocketManager m.tunnelId s.nextRef p hp
        with hp | hp
      · subst hp
        exact absurd (show s.nextRef = ref from hp2) (by omega)
      · exact huniq p hp hp2
    · show sendsTo ref
        (s.log ++ [Effect.created s.nextRef tr m.tunnelId m.remotePort]) =
        sendsTo ref s.log
      rw [sendsTo_append, sendsTo_created, List.append_nil]
  · by_cases h2 : m.event = "connection" ∨ m.event = "data"
    · cases hget2 : tableGet s.idToSocketManager m.tunnelId with
      | none =>
        have hstep : stepParsed tr s m = s := by
          rw [stepParsed, handleParsed, if_neg h1, if_pos h2, hget2]
        rw [hstep]
        exact ⟨hget, huniq, rfl⟩
      | some r2 =>
        have hr2 : r2 ≠ ref := by
          intro hc
          subst hc
          exact hid (huniq (m.tunnelId, r2) (mem_of_tableGet _ _ _ hget2) rfl)
        rw [stepParsed_route tr s m r2 h2 hget2]
        refine ⟨hget, huniq, ?_⟩
        show sendsTo ref (s.log ++ [Effect.send r2 m]) = sendsTo ref s.log
        rw [sendsTo_append, sendsTo_send_other ref r2 m hr2, List.append_nil]
    · by_cases h3 : m.event = "proxyClosed"
      · cases hget2 : tableGet s.idToSocketManager m.tunnelId with
        | none =>
          have hstep : stepParsed tr s m = s := by
            rw [stepParsed, handleParsed, if_neg h1, if_neg h2, if_pos h3,
              hget2]
          rw [hstep]
          exact ⟨hget, huniq, rfl⟩
        | some r2 =>
          rw [stepParsed_closed tr s m r2 h3 hget2]
          refine ⟨hget, huniq, ?_⟩
          show sendsTo ref (s.log ++ [Effect.close r2]) = sendsTo ref s.log
          rw [sendsTo_append, sendsTo_close, List.append_nil]
      · have hstep : stepParsed tr s m = s := by
          rw [stepParsed, handleParsed, if_neg h1, if_neg h2, if_neg h3]
        rw [hstep]
        exact ⟨hget, huniq, rfl⟩

theorem run_sendsTo (tr : Nat) (id : String) (ref : Nat) :
    ∀ (post : List Message) (s : RouterState), goodState s →
      tableGet s.idToSocketManager id = some ref →
      (∀ p ∈ s.idToSocketManager, p.2 = ref → p.1 = id) →
      (∀ m ∈ post, m.tunnelId = id →
        (m.event = "connection" ∨ m.event = "data")) →
      sendsTo ref (run tr s post).log =
        sendsTo ref s.log ++ post.filter (fun m => m.tunnelId == id)
  | [], s => by
    intro hg hget huniq hpost
    simp [run]
  | m :: ms, s => by
    intro hg hget huniq hpost
    rw [run_cons]
    by_cases hm : m.tunnelId = id
    · have hev := hpost m (List.mem_cons.mpr (Or.inl rfl)) hm
      have hget' : tableGet s.idToSocketManager m.tunnelId = some ref := by
        rw [hm]
        exact hget
      have hstep := stepParsed_route tr s m ref hev hget'
      have hg' : goodState { s with log := s.log ++ [Effect.send ref m] } := by
        have hq := stepParsed_good tr s m hg
        rw [hstep] at hq
        exact hq.1
      rw [hstep]
      rw [run_sendsTo tr id ref ms { s with log := s.log ++ [Effect.send ref m] }
        hg' hget huniq (fun m' hm' hid' =>
          hpost m' (List.mem_cons_of_mem _ hm') hid')]
      show sendsTo ref (s.log ++ [Effect.send ref m]) ++
        ms.filter (fun m' => m'.tunnelId == id) =
        sendsTo ref s.log ++ (m :: ms).filter (fun m' => m'.tunnelId == id)
      rw [sendsTo_append, sendsTo_send_self, List.append_assoc,
        List.singleton_append]
      have hpm : List.filter (fun m' : Message => m'.tunnelId == id) (m :: ms)
          = m :: List.filter (fun m' : Message => m'.tunnelId == id) ms := by
        simp [List.filter_cons, hm]
      rw [hpm]
    · have hframe := stepParsed_frame tr s m id ref hg hm hget huniq
      have hg' := (stepParsed_good tr s m hg).1
      rw [run_sendsTo tr id ref ms (stepParsed tr s m) hg' hframe.1
        hframe.2.1 (fun m' hm' hid' =>
          hpost m' (List.mem_cons_of_mem _ hm') hid')]
      rw [hframe.2.2]
      have hpm : List.filter (fun m' : Message => m'.tunnelId == id) (m :: ms)
          = List.filter (fun m' : Message => m'.tunnelId == id) ms := by
        simp [List.filter_cons, hm]
      rw [hpm]

/-- Claim C1 counterexample: after `proxyCreated("t1")` then
`proxyClosed("t1")`, the routing table still maps `"t1"` to session 0 (the
source never deletes the entry), and a subsequent `data("t1")` message is
accepted and forwarded to that session via `send`, not treated as
`UnknownTunnel`. This refutes the claimed removal of the entry and the
claimed drop of subsequent `data` messages. -/
theorem c1_counterexample :
    tableGet (run 0 initialState [mCreateT1, mCloseT1]).idToSocketManager
        ("t1") = some 0 ∧
    handleParsed 0 (run 0 initialState [mCreateT1, mCloseT1]) mDataT1 =
      Except.ok
        { idToSocketManager := [("t1", 0)], nextRef := 1,
          log := [Effect.created 0 0 "t1" (some 8080), Effect.close 0,
            Effect.send 0 mDataT1] } := by
  decide

/-- Claim C1 (amended): handling an inbound `proxyClosed` message whose
tunnel id is mapped to a live session invokes that session's `close()` but
does not remove the entry from the table; any subsequent
`connection`/`data` message for the same id still finds the (closed)
session and is forwarded to it. -/
theorem c1_amended_close_without_removal (tr tr2 : Nat) (s : RouterState)
    (m : Message) (ref : Nat) (hev : m.event = "proxyClosed")
    (hget : tableGet s.idToSocketManager m.tunnelId = some ref) :
    handleParsed tr s m =
      Except.ok { s with log := s.log ++ [Effect.close ref] } ∧
    (∀ md : Message, (md.event = "connection" ∨ md.event = "data") →
      md.tunnelId = m.tunnelId →
      handleParsed tr2 { s with log := s.log ++ [Effect.close ref] } md =
        Except.ok { s with log :=
          (s.log ++ [Effect.close ref]) ++ [Effect.send ref md] }) := by
  have h1 : ¬ m.event = "proxyCreated" := by
    rw [hev]; decide
  have h2 : ¬ (m.event = "connection" ∨ m.event = "data") := by
    rw [hev]; decide
  constructor
  · rw [handleParsed, if_neg h1, if_neg h2, if_pos hev, hget]
  · intro md hmd hid
    have hm1 : ¬ md.event = "proxyCreated" := by
      rcases hmd with h | h <;> rw [h] <;> decide
    have hget2 : tableGet s.idToSocketManager md.tunnelId = some ref := by
      rw [hid]
      exact hget
    simp [handleParsed, hm1, hmd, hget2]

/-- Claim C1 witness: closing a live `"t1"` session appends `close 0` and
leaves the table untouched, and the next `data("t1")` is forwarded to
session 0. -/
theorem c1_witness :
    handleParsed 0 ⟨[("t1", 0)], 1, [Effect.created 0 0 "t1" (some 8080)]⟩
        mCloseT1 =
      Except.ok ⟨[("t1", 0)], 1,
        [Effect.created 0 0 "t1" (some 8080), Effect.close 0]⟩ ∧
    handleParsed 1 ⟨[("t1", 0)], 1,
        [Effect.created 0 0 "t1" (some 8080), Effect.close 0]⟩ mDataT1 =
      Except.ok ⟨[("t1", 0)], 1,
        [Effect.created 0 0 "t1" (some 8080), Effect.close 0,
          Effect.send 0 mDataT1]⟩ :=
  ⟨(c1_amended_close_without_removal 0 1
      ⟨[("t1", 0)], 1, [Effect.created 0 0 "t1" (some 8080)]⟩ mCloseT1 0
      (by decide) (by decide)).1,
   (c1_amended_close_without_removal 0 1
      ⟨[("t1", 0)], 1, [Effect.created 0 0 "t1" (some 8080)]⟩ mCloseT1 0
      (by decide) (by decide)).2 mDataT1 (by decide) (by decide)⟩

/-- Claim C2 counterexample: a `proxyCreated("t1")` arriving on transport 0
followed by a `data("t1")` arriving on transport 1 results in the data
message being forwarded to the session created on transport 0: the routing
table is created once per `launch` and shared by all connections, so a
tunnel id created on one transport IS visible to message handling on
another transport. -/
theorem c2_counterexample :
    serverRun initialState
        [(0, RawData.wellFormed mCreateT1), (1, RawData.wellFormed mDataT1)] =
      { idToSocketManager := [("t1", 0)], nextRef := 1,
        log := [Effect.created 0 0 "t1" (some 8080),
          Effect.send 0 mDataT1] } := by
  decide

/-- Claim C2 (amended): `launch` creates a single routing table shared by
every accepted connection; `onConnection` registers a message handler on
the transport but does not create a per-transport table. Consequently a
tunnel id created by a `proxyCreated` handled on one transport is visible
to message handling on every other transport: a matching
`connection`/`data` message handled on any transport is forwarded to the
session created on the first (the session itself captures the creating
transport). -/
theorem c2_amended_shared_table (tr1 tr2 : Nat) (s : RouterState)
    (mc md : Message) (hc : mc.event = "proxyCreated")
    (hd : md.event = "connection" ∨ md.event = "data")
    (hid : md.tunnelId = mc.tunnelId) :
    handleParsed tr1 s mc = Except.ok
      { idToSocketManager := tableSet s.idToSocketManager mc.tunnelId s.nextRef,
        nextRef := s.nextRef + 1,
        log := s.log ++
          [Effect.created s.nextRef tr1 mc.tunnelId mc.remotePort] } ∧
    handleParsed tr2
      { idToSocketManager := tableSet s.idToSocketManager mc.tunnelId s.nextRef,
        nextRef := s.nextRef + 1,
        log := s.log ++
          [Effect.created s.nextRef tr1 mc.tunnelId mc.remotePort] } md =
      Except.ok
      { idToSocketManager := tableSet s.idToSocketManager mc.tunnelId s.nextRef,
        nextRef := s.nextRef + 1,
        log := (s.log ++
          [Effect.created s.nextRef tr1 mc.tunnelId mc.remotePort]) ++
          [Effect.send s.nextRef md] } := by
  constructor
  · rw [handleParsed, if_pos hc]
  · have hm1 : ¬ md.event = "proxyCreated" := by
      rcases hd with h | h <;> rw [h] <;> decide
    have hget2 : tableGet (tableSet s.idToSocketManager mc.tunnelId s.nextRef)
        md.tunnelId = some s.nextRef := by
      rw [hid]
      exact tableGet_tableSet_self s.idToSocketManager mc.tunnelId s.nextRef
    simp [handleParsed, hm1, hd, hget2]

/-- Claim C2 witness: create on transport 0, then data on transport 1 is
forwarded to the session created on transport 0. -/
theorem c2_witness :
    handleParsed 0 initialState mCreateT1 =
      Except.ok ⟨[("t1", 0)], 1, [Effect.created 0 0 "t1" (some 8080)]⟩ ∧
    handleParsed 1 ⟨[("t1", 0)], 1, [Effect.created 0 0 "t1" (some 8080)]⟩
        mDataT1 =
      Except.ok ⟨[("t1", 0)], 1,
        [Effect.created 0 0 "t1" (some 8080), Effect.send 0 mDataT1]⟩ :=
  ⟨(c2_amended_shared_table 0 1 initialState mCreateT1 mDataT1 (by decide)
      (by decide) (by decide)).1,
   (c2_amended_shared_table 0 1 initialState mCreateT1 mDataT1 (by decide)
      (by decide) (by decide)).2⟩

/-- Claim C3 counterexample: the per-message handler does not catch its
failures. A malformed payload makes the handler complete with the
`MalformedMessage` error, and a `data` message for an unknown tunnel makes
it complete with the `UnknownTunnel` error (the failed `invariant` throws):
in both cases the error escapes the async handler as a rejection instead of
being caught and reported inside it. -/
theorem c3_counterexample :
    handleRaw 0 initialState (RawData.malformed "oops") =
      Except.error TunnelError.malformedMessage ∧
    handleRaw 0 initialState (RawData.wellFormed mDataT1) =
      Except.error TunnelError.unknownTunnel := by
  decide

/-- Claim C3 (amended): a failure while handling an inbound message is not
caught by the per-message handler; it escapes as the async handler's
rejection. Because the subscription ignores the handler's result, the
failing message leaves the state unchanged and does not terminate the
subscription: the remaining messages are processed exactly as if the
failing delivery had not occurred. -/
theorem c3_amended_error_skips_message (s : RouterState)
    (d : Nat × RawData) (ds : List (Nat × RawData)) (e : TunnelError)
    (h : handleRaw d.1 s d.2 = Except.error e) :
    stepRaw s d = s ∧ serverRun s (d :: ds) = serverRun s ds := by
  have hstep : stepRaw s d = s := by
    rw [stepRaw, h]
  exact ⟨hstep, by simp [serverRun, List.foldl_cons, hstep]⟩

/-- Claim C3 witness: a malformed delivery leaves the state unchanged and
the subsequent messages are handled as if it had not arrived. -/
theorem c3_witness :
    handleRaw 0 initialState (RawData.malformed "oops") =
      Except.error TunnelError.malformedMessage ∧
    (stepRaw initialState (0, RawData.malformed "oops") = initialState ∧
      serverRun initialState
        [(0, RawData.malformed "oops"), (0, RawData.wellFormed mCreateT1)] =
        serverRun initialState [(0, RawData.wellFormed mCreateT1)]) :=
  ⟨by decide,
   c3_amended_error_skips_message initialState (0, RawData.malformed "oops")
     [(0, RawData.wellFormed mCreateT1)] TunnelError.malformedMessage
     (by decide)⟩

/-- Claim C4: for every sequence of well-formed inbound messages processed
in arrival order, if a `proxyCreated(id, port)` message is followed by
messages such that every later message carrying tunnel id `id` is a
`connection` or `data` message, then exactly those `id`-messages are
forwarded, via `send`, to the session created by that `proxyCreated`, in
arrival order. -/
theorem c4_forward_in_arrival_order (tr : Nat) (pre post : List Message)
    (id : String) (port : Option Nat) (payload : Option String)
    (hpost : ∀ m ∈ post, m.tunnelId = id →
      (m.event = "connection" ∨ m.event = "data")) :
    sendsTo (run tr initialState pre).nextRef
      (run tr initialState
        (pre ++ mkCreated id port payload :: post)).log =
      post.filter (fun m => m.tunnelId == id) := by
  have hg1 : goodState (run tr initialState pre) :=
    run_good tr pre initialState goodState_initial
  rw [run_append, run_cons, stepParsed_created]
  generalize hs1 : run tr initialState pre = s1
  rw [hs1] at hg1
  have hget : tableGet (tableSet s1.idToSocketManager id s1.nextRef) id =
      some s1.nextRef := tableGet_tableSet_self _ _ _
  have huniq : ∀ p ∈ tableSet s1.idToSocketManager id s1.nextRef,
      p.2 = s1.nextRef → p.1 = id := by
    intro p hp hp2
    rcases mem_tableSet s1.idToSocketManager id s1.nextRef p hp with hp | hp
    · rw [hp]
    · exact absurd hp2 (by have := hg1.1 p hp; omega)
  have hg2 : goodState
      { idToSocketManager := tableSet s1.idToSocketManager id s1.nextRef,
        nextRef := s1.nextRef + 1,
        log := s1.log ++ [Effect.created s1.nextRef tr id port] } := by
    constructor
    · intro p hp
      show p.2 < s1.nextRef + 1
      rcases mem_tableSet s1.idToSocketManager id s1.nextRef p hp with hp | hp
      · subst hp
        show s1.nextRef < s1.nextRef + 1
        omega
      · have := hg1.1 p hp
        omega
    · intro e he
      show effRef e < s1.nextRef + 1
      rcases List.mem_append.mp he with he | he
      · have := hg1.2 e he
        omega
      · rcases List.mem_singleton.mp he with rfl
        rw [effRef]
        omega
  rw [run_sendsTo tr id s1.nextRef post
    { idToSocketManager := tableSet s1.idToSocketManager id s1.nextRef,
      nextRef := s1.nextRef + 1,
      log := s1.log ++ [Effect.created s1.nextRef tr id port] }
    hg2 hget huniq hpost]
  show sendsTo s1.nextRef (s1.log ++ [Effect.created s1.nextRef tr id port])
      ++ post.filter (fun m => m.tunnelId == id) =
      post.filter (fun m => m.tunnelId == id)
  rw [sendsTo_append, sendsTo_created,
    sendsTo_eq_nil_of_fresh s1.nextRef s1.nextRef (Nat.le_refl _) s1.log
      hg1.2,
    List.append_nil, List.nil_append]

/-- Claim C4 witness: after creating `"t1"`, the interleaved sequence with
traffic for `"t2"` forwards exactly the `"t1"` data messages, in order, to
the session created for `"t1"`. -/
theorem c4_witness :
    (∀ m ∈ [mDataT1, mCreateT2, mDataT2, mDataT1], m.tunnelId = "t1" →
      (m.event = "connection" ∨ m.event = "data")) ∧
    sendsTo (run 0 initialState []).nextRef
      (run 0 initialState
        ([] ++ mCreateT1 :: [mDataT1, mCreateT2, mDataT2, mDataT1])).log =
      [mDataT1, mCreateT2, mDataT2, mDataT1].filter
        (fun m => m.tunnelId == "t1") :=
  ⟨by decide,
   c4_forward_in_arrival_order 0 [] [mDataT1, mCreateT2, mDataT2, mDataT1]
     "t1" (some 8080) none (by decide)⟩

/-- Claim C5: handling a `proxyCreated` message constructs a new session
with `(tunnelId, remotePort, transport)` and inserts it under the tunnel
id, unconditionally overwriting the prior entry; the only session effect is
the construction (in particular the replaced session's `close()` is not
invoked), and a subsequent `connection`/`data` message for that id routes
to the newest session. -/
theorem c5_overwrite_without_close (tr tr2 : Nat) (s : RouterState)
    (m : Message) (oldRef : Nat) (hev : m.event = "proxyCreated")
    (hold : tableGet s.idToSocketManager m.tunnelId = some oldRef)
    (hfresh : ∀ p ∈ s.idToSocketManager, p.2 < s.nextRef) :
    handleParsed tr s m = Except.ok
      { idToSocketManager := tableSet s.idToSocketManager m.tunnelId s.nextRef,
        nextRef := s.nextRef + 1,
        log := s.log ++
          [Effect.created s.nextRef tr m.tunnelId m.remotePort] } ∧
    oldRef < s.nextRef ∧
    tableGet (tableSet s.idToSocketManager m.tunnelId s.nextRef) m.tunnelId =
      some s.nextRef ∧
    (∀ md : Message, (md.event = "connection" ∨ md.event = "data") →
      md.tunnelId = m.tunnelId →
      handleParsed tr2
        { idToSocketManager :=
            tableSet s.idToSocketManager m.tunnelId s.nextRef,
          nextRef := s.nextRef + 1,
          log := s.log ++
            [Effect.created s.nextRef tr m.tunnelId m.remotePort] } md =
        Except.ok
        { idToSocketManager :=
            tableSet s.idToSocketManager m.tunnelId s.nextRef,
          nextRef := s.nextRef + 1,
          log := (s.log ++
            [Effect.created s.nextRef tr m.tunnelId m.remotePort]) ++
            [Effect.send s.nextRef md] }) := by
  refine ⟨?_, ?_, ?_, ?_⟩
  · rw [handleParsed, if_pos hev]
  · exact hfresh (m.tunnelId, oldRef) (mem_of_tableGet _ _ _ hold)
  · exact tableGet_tableSet_self _ _ _
  · intro md hmd hid
    have hm1 : ¬ md.event = "proxyCreated" := by
      rcases hmd with h | h <;> rw [h] <;> decide
    have hget2 : tableGet (tableSet s.idToSocketManager m.tunnelId s.nextRef)
        md.tunnelId = some s.nextRef := by
      rw [hid]
      exact tableGet_tableSet_self s.idToSocketManager m.tunnelId s.nextRef
    simp [handleParsed, hm1, hmd, hget2]

/-- Claim C5 witness: re-creating `"t1"` over a live entry replaces the
table entry by the new session 8, never calls `close()` on session 7, and
routes the next `data("t1")` to session 8. -/
theorem c5_witness :
    handleParsed 0 ⟨[("t1", 7)], 8, []⟩
        mCreateT1b =
      Except.ok ⟨[("t1", 8)], 9, [Effect.created 8 0 "t1" (some 9090)]⟩ ∧
    (7 : Nat) < 8 ∧
    tableGet [("t1", 8)] "t1" = some 8 ∧
    handleParsed 1 ⟨[("t1", 8)], 9, [Effect.created 8 0 "t1" (some 9090)]⟩
        mDataT1 =
      Except.ok ⟨[("t1", 8)], 9,
        [Effect.created 8 0 "t1" (some 9090), Effect.send 8 mDataT1]⟩ :=
  ⟨(c5_overwrite_without_close 0 1 ⟨[("t1", 7)], 8, []⟩
      mCreateT1b 7 (by decide)
      (by decide) (by decide)).1,
   (c5_overwrite_without_close 0 1 ⟨[("t1", 7)], 8, []⟩
      mCreateT1b 7 (by decide)
      (by decide) (by decide)).2.1,
   (c5_overwrite_without_close 0 1 ⟨[("t1", 7)], 8, []⟩
      mCreateT1b 7 (by decide)
      (by decide) (by decide)).2.2.1,
   (c5_overwrite_without_close 0 1 ⟨[("t1", 7)], 8, []⟩
      mCreateT1b 7 (by decide)
      (by decide) (by decide)).2.2.2 mDataT1 (by decide) (by decide)⟩

/-- Claim C6: a `connection`, `data` or `proxyClosed` message whose tunnel
id has no entry in the table fails with the `UnknownTunnel` failure (the
`invariant` throws); no session is constructed and no `send` or `close` is
invoked on any session — the state as seen by the subscription loop is
exactly unchanged. -/
theorem c6_unknown_tunnel (tr : Nat) (s : RouterState) (m : Message)
    (hget : tableGet s.idToSocketManager m.tunnelId = none)
    (hev : m.event = "connection" ∨ m.event = "data" ∨
      m.event = "proxyClosed") :
    handleParsed tr s m = Except.error TunnelError.unknownTunnel ∧
    stepParsed tr s m = s := by
  rcases hev with h | h | h
  · have h1 : ¬ m.event = "proxyCreated" := by
      rw [h]; decide
    have h2 : m.event = "connection" ∨ m.event = "data" := Or.inl h
    exact ⟨by rw [handleParsed, if_neg h1, if_pos h2, hget],
      by rw [stepParsed, handleParsed, if_neg h1, if_pos h2, hget]⟩
  · have h1 : ¬ m.event = "proxyCreated" := by
      rw [h]; decide
    have h2 : m.event = "connection" ∨ m.event = "data" := Or.inr h
    exact ⟨by rw [handleParsed, if_neg h1, if_pos h2, hget],
      by rw [stepParsed, handleParsed, if_neg h1, if_pos h2, hget]⟩
  · have h1 : ¬ m.event = "proxyCreated" := by
      rw [h]; decide
    have h2 : ¬ (m.event = "connection" ∨ m.event = "data") := by
      rw [h]; decide
    exact ⟨by rw [handleParsed, if_neg h1, if_neg h2, if_pos h, hget],
      by rw [stepParsed, handleParsed, if_neg h1, if_neg h2, if_pos h, hget]⟩

/-- Claim C6 witness: a `proxyClosed` for the never-created `"t1"` on the
empty initial table fails with `UnknownTunnel` and changes nothing. -/
theorem c6_witness :
    handleParsed 0 initialState mCloseT1 =
      Except.error TunnelError.unknownTunnel ∧
    stepParsed 0 initialState mCloseT1 = initialState :=
  c6_unknown_tunnel 0 initialState mCloseT1 (by decide) (by decide)

/-- Claim C7: dispatch only ever invokes `send` or `close` on the session
registered in the table under the handled message's own tunnel id: every
session reference touched by the new effects of one handled message is the
one the table maps that message's tunnel id to, so a message carrying id A
never reaches the session registered for a different id B. -/
theorem c7_dispatch_isolated (tr : Nat) (s s2 : RouterState) (m : Message)
    (h : handleParsed tr s m = Except.ok s2) :
    ∀ r ∈ touchedRefs (s2.log.drop s.log.length),
      tableGet s.idToSocketManager m.tunnelId = some r := by
  by_cases h1 : m.event = "proxyCreated"
  · rw [handleParsed, if_pos h1] at h
    cases h
    intro r hr
    simp [touchedRefs, List.drop_left] at hr
  · by_cases h2 : m.event = "connection" ∨ m.event = "data"
    · rw [handleParsed, if_neg h1, if_pos h2] at h
      cases hget : tableGet s.idToSocketManager m.tunnelId with
      | none =>
        rw [hget] at h
        simp at h
      | some ref =>
        rw [hget] at h
        cases h
        intro r hr
        simp [touchedRefs, List.drop_left] at hr
        rw [hr]
    · by_cases h3 : m.event = "proxyClosed"
      · rw [handleParsed, if_neg h1, if_neg h2, if_pos h3] at h
        cases hget : tableGet s.idToSocketManager m.tunnelId with
        | none =>
          rw [hget] at h
          simp at h
        | some ref =>
          rw [hget] at h
          cases h
          intro r hr
          simp [touchedRefs, List.drop_left] at hr
          rw [hr]
      · rw [handleParsed, if_neg h1, if_neg h2, if_neg h3] at h
        cases h
        intro r hr
        rw [List.drop_length] at hr
        simp [touchedRefs] at hr

/-- Claim C7 witness: handling `data("t1")` on a table mapping `"t1"` to
session 0 only touches session 0, the one registered under `"t1"`. -/
theorem c7_witness :
    tableGet ([("t1", 0)] : List (String × Nat)) mDataT1.tunnelId = some 0 :=
  c7_dispatch_isolated 0 ⟨[("t1", 0)], 1, []⟩
    ⟨[("t1", 0)], 1, [Effect.send 0 mDataT1]⟩ mDataT1 (by decide) 0
    (by decide)

/-- Claim C8: a well-formed message whose event is outside the set
handled by the dispatch (`proxyCreated`, `connection`, `data`,
`proxyClosed`) falls through every branch: handling succeeds (non-fatal),
the routing table and the effect log are exactly unchanged, so no session
is constructed and neither `send` nor `close` is invoked. -/
theorem c8_unrecognized_event_noop (tr : Nat) (s : RouterState) (m : Message)
    (h1 : m.event ≠ "proxyCreated") (h2 : m.event ≠ "connection")
    (h3 : m.event ≠ "data") (h4 : m.event ≠ "proxyClosed") :
    handleParsed tr s m = Except.ok s := by
  have h23 : ¬ (m.event = "connection" ∨ m.event = "data") := by
    intro hc
    rcases hc with hc | hc
    · exact h2 hc
    · exact h3 hc
  rw [handleParsed, if_neg h1, if_neg h23, if_neg h4]

/-- Claim C8 witness: an event `"ping"` for a live tunnel id leaves the
state exactly as it was. -/
theorem c8_witness :
    handleParsed 0 ⟨[("t1", 0)], 1, [Effect.created 0 0 "t1" (some 8080)]⟩
        mPingT1 =
      Except.ok ⟨[("t1", 0)], 1, [Effect.created 0 0 "t1" (some 8080)]⟩ :=
  c8_unrecognized_event_noop 0
    ⟨[("t1", 0)], 1, [Effect.created 0 0 "t1" (some 8080)]⟩
    mPingT1 (by decide) (by decide) (by decide)
    (by decide)

/-- Claim C9: a raw payload on which `JSON.parse` throws makes the handler
fail before the routing table is read or written: the handler returns the
`MalformedMessage` failure and the state seen by the subscription loop —
table, allocation counter and effect log — is exactly the previous state,
so no session is constructed and no `send` or `close` happens. -/
theorem c9_malformed_state_unchanged (tr : Nat) (s : RouterState)
    (raw : String) :
    handleRaw tr s (RawData.malformed raw) =
      Except.error TunnelError.malformedMessage ∧
    stepRaw s (tr, RawData.malformed raw) = s :=
  ⟨rfl, rfl⟩

/-- Claim C10: the router does not validate the creation payload: a
well-parsed `proxyCreated` message whose `remotePort` field is absent
(modelled as `none`) still constructs a session — the missing value is
passed through to the `SocketManager` constructor unchanged — and inserts
it into the table under the tunnel id. -/
theorem c10_missing_remote_port_passed_through (tr : Nat) (s : RouterState)
    (id : String) (payload : Option String) :
    handleParsed tr s (mkCreated id none payload) =
      Except.ok
        { idToSocketManager := tableSet s.idToSocketManager id s.nextRef,
          nextRef := s.nextRef + 1,
          log := s.log ++ [Effect.created s.nextRef tr id none] } := by
  simp [handleParsed, mkCreated]

end Tunnel
